import Mathlib

/-!
Shallow embedding of the ollama provider adapter
(`src/ollama-chat-language-model.ts`, `convert-to-ollama-chat-messages.ts`,
and the repository's test fixtures), together with proofs about the claims
of the specification.  JavaScript numbers are modelled as integers-or-NaN
(only integral token counts and JS truthiness matter to the adapter);
strings are Lean strings; JSON wire values are an inductive `Json` type and
the zod schemas become decoders `Json → Option _`.
-/

namespace Ollama

/-- Model of a JavaScript number as the adapter observes it: either NaN or an
integer.  Token counts on the wire are integers, and the only numeric
operations the adapter performs are storing counts and the `||` fallback. -/
inductive JSNumber
  | nan
  | int (n : Int)
deriving DecidableEq, Repr

/-- JavaScript truthiness of a number: `NaN` and `0` are falsy. -/
def JSNumber.truthy : JSNumber → Bool
  | .nan => false
  | .int n => n != 0

/-- Embedding of the JavaScript expression `a || b` where `a` is a
number-or-undefined (`undefined` is falsy). -/
def jsOrNumber (a : Option JSNumber) (b : JSNumber) : JSNumber :=
  match a with
  | none => b
  | some x => if x.truthy then x else b

/-- JSON wire values. -/
inductive Json
  | null
  | bool (b : Bool)
  | num (n : Int)
  | str (s : String)
  | arr (items : List Json)
  | obj (fields : List (String × Json))
deriving Repr

/-- First-match lookup of a key among an object's fields. -/
def lookupField : List (String × Json) → String → Option Json
  | [], _ => none
  | (k, v) :: rest, key => if k = key then some v else lookupField rest key

/-- Member access `j.key` on a JSON value, `none` when absent or not an object. -/
def Json.getField : Json → String → Option Json
  | .obj fields, key => lookupField fields key
  | _, _ => none

def Json.asString : Json → Option String
  | .str s => some s
  | _ => none

def Json.asInt : Json → Option Int
  | .num n => some n
  | _ => none

def Json.asBool : Json → Option Bool
  | .bool b => some b
  | _ => none

/-- Decode a `z.number().optional()` field: absent is fine (`none`),
present must be a number. -/
def decodeOptInt (j : Json) (key : String) : Option (Option Int) :=
  match j.getField key with
  | none => some none
  | some v =>
    match v.asInt with
    | some n => some (some n)
    | none => none

/-- The base64 alphabet (RFC 4648), as used by the external
`convertUint8ArrayToBase64` utility from the provider-utils package. -/
def base64Chars : List Char :=
  "ABCDEFGHIJKLMNOPQRSTUVWXYZabcdefghijklmnopqrstuvwxyz0123456789+/".toList

def base64Digit (n : Nat) : Char := base64Chars.getD n 'A'

/-- Standard base64 encoding of a byte list; embedding of the external
utility `convertUint8ArrayToBase64` used by the message mapper. -/
def convertUint8ArrayToBase64 : List Nat → String
  | [] => ""
  | [a] =>
    String.mk [base64Digit (a / 4), base64Digit (a % 4 * 16), '=', '=']
  | [a, b] =>
    String.mk [base64Digit (a / 4), base64Digit (a % 4 * 16 + b / 16),
      base64Digit (b % 16 * 4), '=']
  | a :: b :: c :: rest =>
    String.mk [base64Digit (a / 4), base64Digit (a % 4 * 16 + b / 16),
      base64Digit (b % 16 * 4 + c / 64), base64Digit (c % 64)]
      ++ convertUint8ArrayToBase64 rest

def jsonEscapeChar (c : Char) : String :=
  if c = '"' then "\\\"" else if c = '\\' then "\\\\" else String.mk [c]

def jsonQuote (s : String) : String :=
  "\"" ++ String.join (s.toList.map jsonEscapeChar) ++ "\""

mutual

/-- Embedding of `JSON.stringify` on wire values. -/
def jsonStringify : Json → String
  | .null => "null"
  | .bool b => if b then "true" else "false"
  | .num n => toString n
  | .str s => jsonQuote s
  | .arr items => "[" ++ jsonStringifyItems items ++ "]"
  | .obj fields => "\x7b" ++ jsonStringifyFields fields ++ "\x7d"

def jsonStringifyItems : List Json → String
  | [] => ""
  | [x] => jsonStringify x
  | x :: y :: rest => jsonStringify x ++ "," ++ jsonStringifyItems (y :: rest)

def jsonStringifyFields : List (String × Json) → String
  | [] => ""
  | [(k, v)] => jsonQuote k ++ ":" ++ jsonStringify v
  | (k, v) :: f :: rest =>
    jsonQuote k ++ ":" ++ jsonStringify v ++ "," ++ jsonStringifyFields (f :: rest)

end

mutual

/-- Embedding of the JavaScript template-literal conversion used in the
tool branch of the mapper. -/
def jsToString : Json → String
  | .null => "null"
  | .bool b => if b then "true" else "false"
  | .num n => toString n
  | .str s => s
  | .arr items => jsToStringItems items
  | .obj _ => "[object Object]"

def jsToStringItems : List Json → String
  | [] => ""
  | [x] => jsToString x
  | x :: y :: rest => jsToString x ++ "," ++ jsToStringItems (y :: rest)

end

/-- Embedding of `typeof v === 'object'`: true for objects, arrays and null. -/
def jsTypeofIsObject : Json → Bool
  | .obj _ => true
  | .arr _ => true
  | .null => true
  | _ => false

/-- Errors raised synchronously by the adapter before any transport work:
`UnsupportedFunctionalityError` (carrying the functionality name) and a
response-body validation failure on the non-streaming path. -/
inductive AdapterError
  | unsupportedFunctionality (functionality : String)
  | responseParseFailure
deriving DecidableEq, Repr

/-- Image payload of a user image part: `image instanceof URL` or
`image instanceof Uint8Array` in the source. -/
inductive ImagePayload
  | url (href : String)
  | bytes (data : List Nat)
deriving DecidableEq, Repr

/-- Parts of a user message in the normalized prompt. -/
inductive UserPart
  | text (text : String)
  | image (image : ImagePayload)
deriving DecidableEq, Repr

/-- Parts of an assistant message: text parts are kept, tool-call parts
fall through the source's `switch` (producing `undefined`, which
`Array.prototype.join` renders as the empty string). -/
inductive AssistantPart
  | text (text : String)
  | toolCall (toolCallId : String)
deriving DecidableEq, Repr

/-- A tool-result part of a tool-role message. -/
structure ToolResultPart where
  toolCallId : String
  result : Json
deriving Repr

/-- A message of the normalized (provider-agnostic) prompt. -/
inductive PromptMessage
  | system (content : String)
  | user (content : List UserPart)
  | assistant (content : List AssistantPart)
  | tool (content : List ToolResultPart)
deriving Repr

/-- A message in the target service's wire format. -/
inductive OllamaMessage
  | system (content : String)
  | user (content : String) (images : Option (List String))
  | assistant (content : String)
  | tool (content : String) (tool_call_id : String)
deriving DecidableEq, Repr

/-- Modelled from the spec: the source file
`generate-tool/inject-tools-schema-into-system.ts` is not under `src/`.
Per spec section 4.2 the injector returns the system text unchanged when no
tools are declared, and the mapper invokes it with only the system text
(`injectToolsSchemaIntoSystem({ system: content })`), declaring no tools. -/
def injectToolsSchemaIntoSystem (system : String) : String := system

/-- Accumulator of the user-message `reduce`: the seed is
`\x7b content: '' \x7d`, with no `images` key (modelled as `none`). -/
structure UserAcc where
  content : String
  images : Option (List String)
deriving DecidableEq, Repr

/-- Embedding of the `content.reduce` in the mapper's `user` branch: text is
appended to `content`; a URL image throws `UnsupportedFunctionality:
image-part`; a binary image is base64-encoded and appended to the lazily
created `images` list. -/
def foldUserParts : List UserPart → UserAcc → Except AdapterError UserAcc
  | [], acc => .ok acc
  | .text s :: rest, acc =>
    foldUserParts rest { acc with content := acc.content ++ s }
  | .image (.url _) :: _, _ =>
    .error (.unsupportedFunctionality "image-part")
  | .image (.bytes b) :: rest, acc =>
    foldUserParts rest
      { acc with images := some (acc.images.getD [] ++ [convertUint8ArrayToBase64 b]) }

/-- Text of an assistant part as produced by the source's `switch`/`join`:
non-text parts become the empty string. -/
def assistantPartText : AssistantPart → String
  | .text s => s
  | .toolCall _ => ""

/-- Content of a target tool message: `JSON.stringify(result)` when
`typeof result === 'object'`, the template-literal string otherwise. -/
def toolResultContent (result : Json) : String :=
  if jsTypeofIsObject result then jsonStringify result else jsToString result

/-- One iteration of the mapper's `for`/`switch`: the list of target
messages pushed for one normalized message (the tool branch pushes one
message per tool-result part). -/
def convertMessage : PromptMessage → Except AdapterError (List OllamaMessage)
  | .system content =>
    .ok [.system (injectToolsSchemaIntoSystem content)]
  | .user content =>
    match foldUserParts content { content := "", images := none } with
    | .error e => .error e
    | .ok acc => .ok [.user acc.content acc.images]
  | .assistant content =>
    .ok [.assistant (String.join (content.map assistantPartText))]
  | .tool content =>
    .ok (content.map fun part =>
      .tool (toolResultContent part.result) part.toolCallId)

/-- Embedding of `convertToOllamaChatMessages`: fold the normalized prompt
message by message, concatenating the pushed target messages; the first
thrown error aborts the whole conversion. -/
def convertToOllamaChatMessages : List PromptMessage → Except AdapterError (List OllamaMessage)
  | [] => .ok []
  | m :: rest => do
    let head ← convertMessage m
    let tail ← convertToOllamaChatMessages rest
    .ok (head ++ tail)

/-- Does a part list contain a URL-typed image part? -/
def hasUrlImagePart : List UserPart → Bool
  | [] => false
  | .image (.url _) :: _ => true
  | _ :: rest => hasUrlImagePart rest

/-- Does a normalized prompt contain a user message with a URL image part? -/
def promptHasUrlImage : List PromptMessage → Bool
  | [] => false
  | .user parts :: rest => hasUrlImagePart parts || promptHasUrlImage rest
  | _ :: rest => promptHasUrlImage rest

/-- Left-to-right concatenation of the text parts of a user message. -/
def textsConcat : List UserPart → String
  | [] => ""
  | .text s :: rest => s ++ textsConcat rest
  | _ :: rest => textsConcat rest

/-- Base64 encodings of the binary image parts of a user message, in order. -/
def imagesB64 : List UserPart → List String
  | [] => []
  | .image (.bytes b) :: rest => convertUint8ArrayToBase64 b :: imagesB64 rest
  | _ :: rest => imagesB64 rest

/-- How the user fold combines an images accumulator with the images
contributed by a part list. -/
def combineImages (imgs : Option (List String)) (parts : List UserPart) : Option (List String) :=
  if (imagesB64 parts).isEmpty then imgs else some (imgs.getD [] ++ imagesB64 parts)

/-- The caller-facing normalized finish-reason enumeration
(`LanguageModelV1FinishReason`). -/
inductive FinishReason
  | stop
  | length
  | contentFilter
  | toolCalls
  | error
  | other
  | unknown
deriving DecidableEq, Repr

/-- Modelled from the spec: the source file `map-ollama-finish-reason.ts` is
not under `src/`.  Per spec section 4.3 the observed service vocabulary is a
generic "stop" signal mapping to `stop`, and unrecognized values normalize
to `other`, never failing. -/
def mapOllamaFinishReason (finishReason : String) : FinishReason :=
  if finishReason = "stop" then .stop else .other

/-- Caller-facing usage record; unknown counts are NaN per the numeric
contract. -/
structure Usage where
  completionTokens : JSNumber
  promptTokens : JSNumber
deriving DecidableEq, Repr

/-- The `message` object of a chat response record
(`z.object(\x7b content: z.string(), role: z.string() \x7d)`). -/
structure ChatMessage where
  content : String
  role : String
deriving DecidableEq, Repr

/-- Zod output type of `ollamaChatChunkSchema` (the non-streaming response
record; `done` is the literal `true` and is not stored). -/
structure OllamaChatChunk where
  created_at : String
  eval_count : Int
  eval_duration : Int
  load_duration : Option Int
  message : ChatMessage
  model : String
  prompt_eval_count : Option Int
  prompt_eval_duration : Option Int
  total_duration : Int
deriving DecidableEq, Repr

/-- Decoder for the nested message schema. -/
def decodeChatMessage (j : Json) : Option ChatMessage := do
  let content ← (← j.getField "content").asString
  let role ← (← j.getField "role").asString
  pure { content := content, role := role }

/-- Embedding of `ollamaChatChunkSchema`: required string/number fields,
optional number fields, `done: z.literal(true)`, and a required nested
message object.  Unknown keys are ignored (zod strips them). -/
def decodeChatChunk (j : Json) : Option OllamaChatChunk := do
  let created_at ← (← j.getField "created_at").asString
  let done ← (← j.getField "done").asBool
  if done then
    let eval_count ← (← j.getField "eval_count").asInt
    let eval_duration ← (← j.getField "eval_duration").asInt
    let load_duration ← decodeOptInt j "load_duration"
    let message ← decodeChatMessage (← j.getField "message")
    let model ← (← j.getField "model").asString
    let prompt_eval_count ← decodeOptInt j "prompt_eval_count"
    let prompt_eval_duration ← decodeOptInt j "prompt_eval_duration"
    let total_duration ← (← j.getField "total_duration").asInt
    pure
      { created_at := created_at
        eval_count := eval_count
        eval_duration := eval_duration
        load_duration := load_duration
        message := message
        model := model
        prompt_eval_count := prompt_eval_count
        prompt_eval_duration := prompt_eval_duration
        total_duration := total_duration }
  else
    none

/-- Zod output type of the `done: false` variant of
`ollamaChatStreamChunkSchema`. -/
structure StreamDelta where
  created_at : String
  message : ChatMessage
  model : String
deriving DecidableEq, Repr

/-- Zod output type of the `done: true` variant of
`ollamaChatStreamChunkSchema`. -/
structure StreamTerminal where
  created_at : String
  eval_count : Int
  eval_duration : Int
  load_duration : Option Int
  model : String
  prompt_eval_count : Option Int
  prompt_eval_duration : Option Int
  total_duration : Int
deriving DecidableEq, Repr

/-- Zod output type of `ollamaChatStreamChunkSchema`, a discriminated union
on the `done` field. -/
inductive StreamChunk
  | delta (value : StreamDelta)
  | terminal (value : StreamTerminal)
deriving DecidableEq, Repr

/-- Decoder for the `done: false` variant's fields. -/
def decodeStreamDelta (j : Json) : Option StreamDelta := do
  let created_at ← (← j.getField "created_at").asString
  let message ← decodeChatMessage (← j.getField "message")
  let model ← (← j.getField "model").asString
  pure { created_at := created_at, message := message, model := model }

/-- Decoder for the `done: true` variant's fields. -/
def decodeStreamTerminal (j : Json) : Option StreamTerminal := do
  let created_at ← (← j.getField "created_at").asString
  let eval_count ← (← j.getField "eval_count").asInt
  let eval_duration ← (← j.getField "eval_duration").asInt
  let load_duration ← decodeOptInt j "load_duration"
  let model ← (← j.getField "model").asString
  let prompt_eval_count ← decodeOptInt j "prompt_eval_count"
  let prompt_eval_duration ← decodeOptInt j "prompt_eval_duration"
  let total_duration ← (← j.getField "total_duration").asInt
  pure
    { created_at := created_at
      eval_count := eval_count
      eval_duration := eval_duration
      load_duration := load_duration
      model := model
      prompt_eval_count := prompt_eval_count
      prompt_eval_duration := prompt_eval_duration
      total_duration := total_duration }

/-- Embedding of `ollamaChatStreamChunkSchema`: pick the variant by the
`done` discriminator, then validate that variant's fields. -/
def decodeStreamChunk (j : Json) : Option StreamChunk := do
  let done ← (← j.getField "done").asBool
  if done then
    (decodeStreamTerminal j).map .terminal
  else
    (decodeStreamDelta j).map .delta

/-- Per-line output of the streaming decoder (`ParseResult` of the
provider-utils package): a successfully parsed record or a parse failure
carrying the error. -/
inductive ParseOutcome (α : Type)
  | success (value : α)
  | failure (error : String)
deriving DecidableEq, Repr

/-- Caller-facing stream events (`LanguageModelV1StreamPart`, restricted to
the three variants this adapter emits). -/
inductive StreamEvent
  | textDelta (textDelta : String)
  | error (error : String)
  | finish (finishReason : FinishReason) (usage : Usage)
deriving DecidableEq, Repr

def StreamEvent.isFinish : StreamEvent → Bool
  | .finish _ _ => true
  | _ => false

/-- The mutable closure state of the `doStream` transform: `finishReason`
and `usage`, read once at flush. -/
structure StreamState where
  finishReason : FinishReason
  usage : Usage
deriving DecidableEq, Repr

/-- Initial transform state:
`finishReason = 'other'`, `usage = \x7b NaN, NaN \x7d`. -/
def initialStreamState : StreamState :=
  { finishReason := .other
    usage := { completionTokens := .nan, promptTokens := .nan } }

/-- Embedding of the guard `value.message.content !== null`: after schema
validation `content` has JavaScript type `string`, and a string value is
never `null`, so the strict inequality holds for every such value. -/
def jsStringNeNull (_content : String) : Bool := true

/-- One invocation of the `transform` callback: new state and the events
enqueued for this chunk.  A decode failure enqueues an error event and
returns; a terminal record updates the state and enqueues nothing; a
non-terminal record with non-null content enqueues its text delta. -/
def transformStep (st : StreamState) (chunk : ParseOutcome StreamChunk) :
    StreamState × List StreamEvent :=
  match chunk with
  | .failure e => (st, [.error e])
  | .success value =>
    match value with
    | .terminal t =>
      ({ finishReason := mapOllamaFinishReason "stop"
         usage := { completionTokens := .int t.eval_count, promptTokens := .nan } }, [])
    | .delta d =>
      if jsStringNeNull d.message.content then
        (st, [.textDelta d.message.content])
      else
        (st, [])

/-- Run the transform over a whole chunk sequence: final state and all
events enqueued by `transform` calls, in order. -/
def runTransform (st : StreamState) : List (ParseOutcome StreamChunk) →
    StreamState × List StreamEvent
  | [] => (st, [])
  | c :: cs =>
    let step := transformStep st c
    let rest := runTransform step.1 cs
    (rest.1, step.2 ++ rest.2)

/-- The full event sequence `doStream` emits for a chunk sequence: the
transform's events followed by the single finish event enqueued by `flush`
from the final state. -/
def doStreamEvents (chunks : List (ParseOutcome StreamChunk)) : List StreamEvent :=
  let run := runTransform initialStreamState chunks
  run.2 ++ [.finish run.1.finishReason run.1.usage]

/-- The events a single chunk contributes (the transform's event output
does not depend on the current state). -/
def chunkEvents (chunk : ParseOutcome StreamChunk) : List StreamEvent :=
  (transformStep initialStreamState chunk).2

/-- Is this chunk a successfully decoded terminal (`done=true`) record? -/
def isTerminalChunk : ParseOutcome StreamChunk → Bool
  | .success (.terminal _) => true
  | _ => false

/-- The generation-mode tag of the call options (`mode.type`). -/
inductive ModeType
  | regular
  | objectJson
  | objectTool
  | objectGrammar
deriving DecidableEq, Repr

/-- Per-instance settings (`OllamaChatSettings`); every field is optional. -/
structure OllamaChatSettings where
  mirostat : Option JSNumber := none
  mirostatEta : Option JSNumber := none
  mirostatTau : Option JSNumber := none
  numCtx : Option JSNumber := none
  repeatLastN : Option JSNumber := none
  repeatPenalty : Option JSNumber := none
  stop : Option (List String) := none
  tfsZ : Option JSNumber := none
  topK : Option JSNumber := none
deriving Repr

/-- The call options destructured by `getArguments`. -/
structure CallOptions where
  frequencyPenalty : Option JSNumber := none
  maxTokens : Option JSNumber := none
  mode : ModeType
  presencePenalty : Option JSNumber := none
  prompt : List PromptMessage
  seed : Option JSNumber := none
  temperature : Option JSNumber := none
  topP : Option JSNumber := none
deriving Repr

/-- The `options` bag of the request body, built from caller options and
instance settings; absent values stay absent. -/
structure RequestOptions where
  frequency_penalty : Option JSNumber
  mirostat : Option JSNumber
  mirostat_eta : Option JSNumber
  mirostat_tau : Option JSNumber
  num_ctx : Option JSNumber
  num_predict : Option JSNumber
  presence_penalty : Option JSNumber
  repeat_last_n : Option JSNumber
  repeat_penalty : Option JSNumber
  seed : Option JSNumber
  stop : Option (List String)
  temperature : Option JSNumber
  tfs_z : Option JSNumber
  top_k : Option JSNumber
  top_p : Option JSNumber
deriving DecidableEq, Repr

/-- The request arguments built by `getArguments`: mapped messages, model
id, options bag, and the optional `format` flag added in object-json mode. -/
structure OllamaChatArgs where
  messages : List OllamaMessage
  model : String
  options : RequestOptions
  format : Option String
deriving DecidableEq, Repr

/-- Embedding of `getArguments`: build `baseArguments` (running the message
mapper, whose error propagates first), then switch on the mode type.
Returns the arguments and the (always empty) warnings list. -/
def getArguments (settings : OllamaChatSettings) (modelId : String) (o : CallOptions) :
    Except AdapterError (OllamaChatArgs × List String) :=
  match convertToOllamaChatMessages o.prompt with
  | .error e => .error e
  | .ok messages =>
    let baseArguments : OllamaChatArgs :=
      { messages := messages
        model := modelId
        options :=
          { frequency_penalty := o.frequencyPenalty
            mirostat := settings.mirostat
            mirostat_eta := settings.mirostatEta
            mirostat_tau := settings.mirostatTau
            num_ctx := settings.numCtx
            num_predict := o.maxTokens
            presence_penalty := o.presencePenalty
            repeat_last_n := settings.repeatLastN
            repeat_penalty := settings.repeatPenalty
            seed := o.seed
            stop := settings.stop
            temperature := o.temperature
            tfs_z := settings.tfsZ
            top_k := settings.topK
            top_p := o.topP }
        format := none }
    match o.mode with
    | .regular => .ok (baseArguments, [])
    | .objectJson => .ok ({ baseArguments with format := some "json" }, [])
    | .objectTool => .error (.unsupportedFunctionality "object-tool mode")
    | .objectGrammar => .error (.unsupportedFunctionality "object-grammar mode")

/-- Body of a dispatched HTTP request: the arguments plus the explicit
`stream: false` flag on the non-streaming path (absent on the streaming
path). -/
structure RequestBody where
  args : OllamaChatArgs
  stream : Option Bool
deriving DecidableEq, Repr

/-- One HTTP request handed to the transport collaborator. -/
structure HttpRequest where
  url : String
  body : RequestBody
deriving DecidableEq, Repr

/-- Adapter configuration; `headers` and `generateId` are collaborator
callbacks with no bearing on the verified behavior and are omitted. -/
structure OllamaChatConfig where
  baseURL : String
  provider : String
deriving Repr

/-- Result object of `doGenerate` (the raw request/response echoes are
transport-level and omitted). -/
structure GenerateResult where
  finishReason : FinishReason
  text : String
  usage : Usage
  warnings : List String
deriving DecidableEq, Repr

/-- Embedding of `doGenerate`: build arguments (errors propagate with no
request issued), dispatch one request with `stream: false`, validate the
response body against `ollamaChatChunkSchema`, and return text from
`response.message.content`, `finishReason: 'stop'`, and usage
`\x7b completionTokens: NaN, promptTokens: response.prompt_eval_count || NaN \x7d`.
The first component lists the HTTP requests issued. -/
def doGenerate (config : OllamaChatConfig) (settings : OllamaChatSettings)
    (modelId : String) (o : CallOptions) (responseBody : Json) :
    List HttpRequest × Except AdapterError GenerateResult :=
  match getArguments settings modelId o with
  | .error e => ([], .error e)
  | .ok (args, warnings) =>
    let request : HttpRequest :=
      { url := config.baseURL ++ "/chat"
        body := { args := args, stream := some false } }
    match decodeChatChunk responseBody with
    | none => ([request], .error .responseParseFailure)
    | some response =>
      ([request],
        .ok
          { finishReason := .stop
            text := response.message.content
            usage :=
              { completionTokens := .nan
                promptTokens := jsOrNumber (response.prompt_eval_count.map JSNumber.int) .nan }
            warnings := warnings })

/-- Embedding of `doStream`: build arguments (errors propagate with no
request issued), dispatch one request (no `stream` flag), and pipe the
decoded chunk sequence through the reducing transform, whose `flush`
appends the single finish event.  The first component lists the HTTP
requests issued. -/
def doStream (config : OllamaChatConfig) (settings : OllamaChatSettings)
    (modelId : String) (o : CallOptions) (chunks : List (ParseOutcome StreamChunk)) :
    List HttpRequest × Except AdapterError (List StreamEvent) :=
  match getArguments settings modelId o with
  | .error e => ([], .error e)
  | .ok (args, _warnings) =>
    let request : HttpRequest :=
      { url := config.baseURL ++ "/chat"
        body := { args := args, stream := none } }
    ([request], .ok (doStreamEvents chunks))

/-- The default provider configuration observed in the test fixtures. -/
def defaultConfig : OllamaChatConfig :=
  { baseURL := "http://127.0.0.1:11434/api", provider := "ollama.chat" }

/-- Settings object with every optional field absent. -/
def defaultSettings : OllamaChatSettings := {}

/-- The test fixtures' prompt: one user message with one text part. -/
def testPrompt : List PromptMessage :=
  [.user [.text "Hello"]]

/-- Call options with mode `regular` over the test prompt. -/
def regularOptions : CallOptions :=
  { mode := .regular, prompt := testPrompt }

/-- The functionality string named for an unsupported object mode. -/
def objectModeFunctionality : ModeType → String
  | .objectTool => "object-tool mode"
  | .objectGrammar => "object-grammar mode"
  | _ => ""

/-! ### Helper lemmas about the streaming transform -/

/-- The events one `transform` call enqueues do not depend on the current
state. -/
theorem transformStep_events (st : StreamState) (c : ParseOutcome StreamChunk) :
    (transformStep st c).2 = chunkEvents c := by
  cases c with
  | failure e => rfl
  | success v => cases v <;> rfl

/-- Running the transform over an appended list splits into two runs. -/
theorem runTransform_append (st : StreamState) (xs ys : List (ParseOutcome StreamChunk)) :
    runTransform st (xs ++ ys)
      = ((runTransform (runTransform st xs).1 ys).1,
         (runTransform st xs).2 ++ (runTransform (runTransform st xs).1 ys).2) := by
  induction xs generalizing st with
  | nil => simp [runTransform]
  | cons c cs ih =>
    simp only [List.cons_append, runTransform, List.append_eq, ih, List.append_assoc]

/-- The whole event output of a transform run is the concatenation, in
arrival order, of each chunk's own events. -/
theorem runTransform_events (st : StreamState) (chunks : List (ParseOutcome StreamChunk)) :
    (runTransform st chunks).2 = (chunks.map chunkEvents).flatten := by
  induction chunks generalizing st with
  | nil => rfl
  | cons c cs ih =>
    simp only [runTransform, List.map_cons, List.flatten_cons, transformStep_events, ih]

/-- No `transform` call ever enqueues a finish event. -/
theorem chunkEvents_not_finish (c : ParseOutcome StreamChunk) :
    ∀ e ∈ chunkEvents c, e.isFinish = false := by
  cases c with
  | failure e =>
    intro x hx
    simp only [chunkEvents, transformStep, List.mem_singleton] at hx
    subst hx
    rfl
  | success v =>
    cases v with
    | terminal t => intro x hx; simp [chunkEvents, transformStep] at hx
    | delta d =>
      intro x hx
      simp only [chunkEvents, transformStep, jsStringNeNull, if_true,
        List.mem_singleton] at hx
      subst hx
      rfl

/-- A run that never sees a terminal record leaves the state untouched. -/
theorem runTransform_state_of_no_terminal (chunks : List (ParseOutcome StreamChunk))
    (st : StreamState) (h : ∀ c ∈ chunks, isTerminalChunk c = false) :
    (runTransform st chunks).1 = st := by
  induction chunks generalizing st with
  | nil => rfl
  | cons c cs ih =>
    have hrest : ∀ x ∈ cs, isTerminalChunk x = false := by
      intro x hx
      exact h x (List.mem_cons_of_mem c hx)
    cases c with
    | failure e => simpa [runTransform, transformStep] using ih st hrest
    | success v =>
      cases v with
      | delta d =>
        simpa [runTransform, transformStep, jsStringNeNull] using ih st hrest
      | terminal t =>
        have := h (ParseOutcome.success (StreamChunk.terminal t)) (List.mem_cons_self _ _)
        simp [isTerminalChunk] at this

/-! ### Claims about the streaming event protocol -/

/-- C1: for every chunk sequence consumed by `doStream` (including the
empty one and ones with no `done=true` record), the emitted stream is the
per-chunk events in strict arrival order followed by exactly one finish
event, which is last; none of the per-chunk events is a finish event; and
when no terminal record was seen the finish event carries finish reason
`other` and usage NaN/NaN. -/
theorem doStream_finish_exactly_once_and_last (chunks : List (ParseOutcome StreamChunk)) :
    doStreamEvents chunks
        = (chunks.map chunkEvents).flatten
          ++ [StreamEvent.finish (runTransform initialStreamState chunks).1.finishReason
               (runTransform initialStreamState chunks).1.usage]
    ∧ (∀ e ∈ (chunks.map chunkEvents).flatten, e.isFinish = false)
    ∧ ((∀ c ∈ chunks, isTerminalChunk c = false) →
         (runTransform initialStreamState chunks).1
           = { finishReason := .other
               usage := { completionTokens := .nan, promptTokens := .nan } }) := by
  refine ⟨?_, ?_, ?_⟩
  · simp only [doStreamEvents, runTransform_events]
  · intro e he
    rw [List.mem_flatten] at he
    obtain ⟨l, hl, hel⟩ := he
    rw [List.mem_map] at hl
    obtain ⟨c, _, rfl⟩ := hl
    exact chunkEvents_not_finish c e hel
  · intro h
    rw [runTransform_state_of_no_terminal chunks initialStreamState h]
    rfl

/-- Witness for C1 at the empty chunk sequence: the stream still ends (and
consists of) exactly the finish event with the initial state. -/
theorem doStream_finish_exactly_once_and_last_witness :
    doStreamEvents []
      = [StreamEvent.finish .other { completionTokens := .nan, promptTokens := .nan }] := by
  have h := doStream_finish_exactly_once_and_last []
  have hstate := h.2.2 (by intro c hc; cases hc)
  simpa [hstate] using h.1

/-- C2: a successfully decoded terminal record emits no event of its own,
and after it the finish event carries finish reason `stop` and usage
completionTokens = eval_count, promptTokens = NaN — even when the terminal
record carries a `prompt_eval_count`. -/
theorem doStream_terminal_sets_stop_and_usage (cs : List (ParseOutcome StreamChunk))
    (t : StreamTerminal) :
    chunkEvents (.success (.terminal t)) = []
    ∧ doStreamEvents (cs ++ [.success (.terminal t)])
        = (cs.map chunkEvents).flatten
          ++ [StreamEvent.finish .stop
               { completionTokens := .int t.eval_count, promptTokens := .nan }] := by
  constructor
  · rfl
  · have hmap : mapOllamaFinishReason "stop" = .stop := rfl
    simp [doStreamEvents, runTransform_append, runTransform_events, runTransform,
      transformStep, hmap]

/-- C3: a decode-failure chunk makes the transform emit exactly one error
event carrying that chunk's error, leaves the finish/usage state unchanged,
and every subsequent chunk is processed exactly as it would have been
without the failure; the finish event of the overall stream is still
emitted after it. -/
theorem doStream_decode_failure_transparent (st : StreamState) (e : String)
    (xs ys : List (ParseOutcome StreamChunk)) :
    transformStep st (.failure e) = (st, [.error e])
    ∧ (runTransform st (xs ++ .failure e :: ys)).1 = (runTransform st (xs ++ ys)).1
    ∧ (runTransform st (xs ++ .failure e :: ys)).2
        = (runTransform st xs).2
          ++ .error e :: (runTransform (runTransform st xs).1 ys).2
    ∧ doStreamEvents (.failure e :: ys) = .error e :: doStreamEvents ys := by
  refine ⟨rfl, ?_, ?_, ?_⟩
  · rw [runTransform_append, runTransform_append]
    simp [runTransform, transformStep]
  · rw [runTransform_append]
    simp [runTransform, transformStep]
  · simp [doStreamEvents, runTransform, transformStep]

/-- A value that validates as a string IS that string on the wire. -/
theorem asString_eq_some (j : Json) (s : String) (h : j.asString = some s) :
    j = .str s := by
  cases j <;> simp [Json.asString] at h
  rw [h]

/-- A decoded chat message's content is taken verbatim from the `content`
string field of the wire message object. -/
theorem decodeChatMessage_content (mj : Json) (m : ChatMessage)
    (h : decodeChatMessage mj = some m) :
    mj.getField "content" = some (.str m.content) := by
  cases hjc : mj.getField "content" with
  | none => simp [decodeChatMessage, hjc] at h
  | some jc =>
    cases hs : jc.asString with
    | none => simp [decodeChatMessage, hjc, hs] at h
    | some c =>
      cases hjr : mj.getField "role" with
      | none => simp [decodeChatMessage, hjc, hs, hjr] at h
      | some jr =>
        cases hrs : jr.asString with
        | none => simp [decodeChatMessage, hjc, hs, hjr, hrs] at h
        | some r =>
          simp [decodeChatMessage, hjc, hs, hjr, hrs] at h
          rw [asString_eq_some jc c hs, ← h]

/-- C10: every successfully decoded non-terminal (`done=false`) streaming
record makes the transform emit exactly one text-delta event carrying the
record's message content verbatim (the non-null guard filters nothing,
since the schema requires `content` to be a string), and that content is
exactly the wire record's `message.content` string field. -/
theorem doStream_delta_emits_verbatim_text (j : Json) (d : StreamDelta) (st : StreamState)
    (h : decodeStreamChunk j = some (.delta d)) :
    transformStep st (.success (.delta d)) = (st, [.textDelta d.message.content])
    ∧ chunkEvents (.success (.delta d)) = [.textDelta d.message.content]
    ∧ ∃ mj, j.getField "message" = some mj
        ∧ mj.getField "content" = some (.str d.message.content) := by
  refine ⟨rfl, rfl, ?_⟩
  cases hjd : j.getField "done" with
  | none => simp [decodeStreamChunk, hjd] at h
  | some jd =>
    cases hb : jd.asBool with
    | none => simp [decodeStreamChunk, hjd, hb] at h
    | some done =>
      cases done with
      | true =>
        simp [decodeStreamChunk, hjd, hb] at h
      | false =>
        simp [decodeStreamChunk, hjd, hb] at h
        cases hd : decodeStreamDelta j with
        | none => simp [hd] at h
        | some d0 =>
          rw [hd] at h
          simp at h
          subst h
          cases hjca : j.getField "created_at" with
          | none => simp [decodeStreamDelta, hjca] at hd
          | some jca =>
            cases hca : jca.asString with
            | none => simp [decodeStreamDelta, hjca, hca] at hd
            | some ca =>
              cases hmj : j.getField "message" with
              | none => simp [decodeStreamDelta, hjca, hca, hmj] at hd
              | some mj =>
                cases hm : decodeChatMessage mj with
                | none => simp [decodeStreamDelta, hjca, hca, hmj, hm] at hd
                | some m =>
                  cases hjm : j.getField "model" with
                  | none => simp [decodeStreamDelta, hjca, hca, hmj, hm, hjm] at hd
                  | some jm =>
                    cases hml : jm.asString with
                    | none =>
                      simp [decodeStreamDelta, hjca, hca, hmj, hm, hjm, hml] at hd
                    | some mdl =>
                      simp [decodeStreamDelta, hjca, hca, hmj, hm, hjm, hml] at hd
                      refine ⟨mj, rfl, ?_⟩
                      rw [← hd]
                      exact decodeChatMessage_content mj m hm

/-- Witness for C10 at a concrete wire record whose content is the empty
string: the guard does not filter it and the empty delta is emitted. -/
theorem doStream_delta_emits_verbatim_text_witness :
    transformStep initialStreamState
        (.success (.delta { created_at := "2024-05-04T01:59:32.077465Z"
                            message := { content := "", role := "assistant" }
                            model := "llama3" }))
      = (initialStreamState, [.textDelta ""]) :=
  (doStream_delta_emits_verbatim_text
    (Json.obj
      [("model", .str "llama3"),
       ("created_at", .str "2024-05-04T01:59:32.077465Z"),
       ("message", .obj [("role", .str "assistant"), ("content", .str "")]),
       ("done", .bool false)])
    { created_at := "2024-05-04T01:59:32.077465Z"
      message := { content := "", role := "assistant" }
      model := "llama3" }
    initialStreamState
    rfl).1

/-! ### Helper lemmas about the message mapper -/

/-- Folding user parts that contain a URL image always throws the
`image-part` unsupported-functionality error, from any accumulator. -/
theorem foldUserParts_url_error (parts : List UserPart)
    (h : hasUrlImagePart parts = true) (acc : UserAcc) :
    foldUserParts parts acc = .error (.unsupportedFunctionality "image-part") := by
  induction parts generalizing acc with
  | nil => simp [hasUrlImagePart] at h
  | cons p rest ih =>
    cases p with
    | text s =>
      have hr : hasUrlImagePart rest = true := by
        simpa [hasUrlImagePart] using h
      simpa [foldUserParts] using ih hr _
    | image payload =>
      cases payload with
      | url u => rfl
      | bytes b =>
        have hr : hasUrlImagePart rest = true := by
          simpa [hasUrlImagePart] using h
        simpa [foldUserParts] using ih hr _

/-- Appending a binary image part to the accumulator commutes with
`combineImages`. -/
theorem combineImages_bytes (imgs : Option (List String)) (b : List Nat)
    (rest : List UserPart) :
    combineImages imgs (.image (.bytes b) :: rest)
      = combineImages (some (imgs.getD [] ++ [convertUint8ArrayToBase64 b])) rest := by
  simp only [combineImages, imagesB64]
  cases hre : imagesB64 rest with
  | nil => simp
  | cons x xs => simp [List.append_assoc]

/-- Folding user parts without URL images succeeds and produces the
concatenated text and the combined images. -/
theorem foldUserParts_no_url (parts : List UserPart)
    (h : hasUrlImagePart parts = false) (acc : UserAcc) :
    foldUserParts parts acc
      = .ok { content := acc.content ++ textsConcat parts
              images := combineImages acc.images parts } := by
  induction parts generalizing acc with
  | nil =>
    simp [foldUserParts, textsConcat, combineImages, imagesB64]
  | cons p rest ih =>
    cases p with
    | text s =>
      have hr : hasUrlImagePart rest = false := by
        simpa [hasUrlImagePart] using h
      have step := ih hr { acc with content := acc.content ++ s }
      simp only [foldUserParts, step]
      simp [textsConcat, combineImages, imagesB64, String.append_assoc]
    | image payload =>
      cases payload with
      | url u => simp [hasUrlImagePart] at h
      | bytes b =>
        have hr : hasUrlImagePart rest = false := by
          simpa [hasUrlImagePart] using h
        have step := ih hr
          { acc with images := some (acc.images.getD [] ++ [convertUint8ArrayToBase64 b]) }
        simp only [foldUserParts, step]
        simp [textsConcat, combineImages_bytes]

/-- Converting a cons prompt whose head message fails propagates the error. -/
theorem convert_cons_error (m : PromptMessage) (rest : List PromptMessage)
    (e : AdapterError) (hm : convertMessage m = .error e) :
    convertToOllamaChatMessages (m :: rest) = .error e := by
  simp [convertToOllamaChatMessages, hm, Bind.bind, Except.bind]

/-- Converting a cons prompt whose head message succeeds prepends its
target messages to the conversion of the tail. -/
theorem convert_cons_ok (m : PromptMessage) (rest : List PromptMessage)
    (out : List OllamaMessage) (hm : convertMessage m = .ok out) :
    convertToOllamaChatMessages (m :: rest)
      = match convertToOllamaChatMessages rest with
        | .error e => .error e
        | .ok tail => .ok (out ++ tail) := by
  cases hr : convertToOllamaChatMessages rest <;>
    simp [convertToOllamaChatMessages, hm, hr, Bind.bind, Except.bind]

/-- The only error the mapper can raise is the `image-part`
unsupported-functionality error. -/
theorem convert_error_is_image_part (prompt : List PromptMessage) :
    (∃ msgs, convertToOllamaChatMessages prompt = .ok msgs)
    ∨ convertToOllamaChatMessages prompt
        = .error (.unsupportedFunctionality "image-part") := by
  induction prompt with
  | nil => exact .inl ⟨[], rfl⟩
  | cons m rest ih =>
    have hm : (∃ out, convertMessage m = .ok out)
        ∨ convertMessage m = .error (.unsupportedFunctionality "image-part") := by
      cases m with
      | system c => exact .inl ⟨_, rfl⟩
      | assistant c => exact .inl ⟨_, rfl⟩
      | tool c => exact .inl ⟨_, rfl⟩
      | user parts =>
        cases hu : hasUrlImagePart parts with
        | true =>
          exact .inr (by simp [convertMessage, foldUserParts_url_error parts hu])
        | false =>
          refine .inl ⟨[.user (textsConcat parts) (combineImages none parts)], ?_⟩
          simp [convertMessage, foldUserParts_no_url parts hu, String.empty_append]
    rcases hm with ⟨out, hout⟩ | herr
    · rcases ih with ⟨msgs, hok⟩ | herr2
      · exact .inl ⟨out ++ msgs, by rw [convert_cons_ok m rest out hout, hok]⟩
      · exact .inr (by rw [convert_cons_ok m rest out hout, herr2])
    · exact .inr (convert_cons_error m rest _ herr)

/-! ### Claims about the message mapper -/

/-- C7: a normalized prompt containing a user message with a URL-typed
image part makes the mapper fail with the `image-part`
unsupported-functionality error rather than producing output. -/
theorem convert_url_image_fails_image_part (prompt : List PromptMessage)
    (h : promptHasUrlImage prompt = true) :
    convertToOllamaChatMessages prompt
      = .error (.unsupportedFunctionality "image-part") := by
  induction prompt with
  | nil => simp [promptHasUrlImage] at h
  | cons m rest ih =>
    cases m with
    | system c =>
      have hr : promptHasUrlImage rest = true := by
        simpa [promptHasUrlImage] using h
      rw [convert_cons_ok (.system c) rest
        [.system (injectToolsSchemaIntoSystem c)] rfl, ih hr]
    | assistant c =>
      have hr : promptHasUrlImage rest = true := by
        simpa [promptHasUrlImage] using h
      rw [convert_cons_ok (.assistant c) rest
        [.assistant (String.join (c.map assistantPartText))] rfl, ih hr]
    | tool c =>
      have hr : promptHasUrlImage rest = true := by
        simpa [promptHasUrlImage] using h
      have hcm : convertMessage (PromptMessage.tool c)
          = Except.ok (c.map fun part =>
              OllamaMessage.tool (toolResultContent part.result) part.toolCallId) := rfl
      rw [convert_cons_ok (.tool c) rest _ hcm, ih hr]
    | user parts =>
      cases hu : hasUrlImagePart parts with
      | true =>
        exact convert_cons_error _ rest _
          (by simp [convertMessage, foldUserParts_url_error parts hu])
      | false =>
        have hr : promptHasUrlImage rest = true := by
          simpa [promptHasUrlImage, hu] using h
        have hcm : convertMessage (.user parts)
            = .ok [.user (textsConcat parts) (combineImages none parts)] := by
          simp [convertMessage, foldUserParts_no_url parts hu, String.empty_append]
        rw [convert_cons_ok (.user parts) rest _ hcm, ih hr]

/-- Witness for C7: a prompt holding one user message with one URL image
part is rejected with the `image-part` error. -/
theorem convert_url_image_fails_image_part_witness :
    convertToOllamaChatMessages
        [.user [.image (.url "http://example.com/image.png")]]
      = .error (.unsupportedFunctionality "image-part") :=
  convert_url_image_fails_image_part
    [.user [.image (.url "http://example.com/image.png")]] rfl

/-- C8: a user message of text parts and binary image parts maps to exactly
one target message of role user whose content is the left-to-right
concatenation of the text parts, with no images field when there is no
image part and otherwise the base64 encodings of the binary images in
order. -/
theorem convert_user_message_concat_and_images (parts : List UserPart)
    (h : hasUrlImagePart parts = false) :
    convertToOllamaChatMessages [.user parts]
      = .ok [.user (textsConcat parts)
          (if (imagesB64 parts).isEmpty then none else some (imagesB64 parts))] := by
  have hcm : convertMessage (.user parts)
      = .ok [.user (textsConcat parts) (combineImages none parts)] := by
    simp [convertMessage, foldUserParts_no_url parts h, String.empty_append]
  rw [convert_cons_ok (.user parts) [] _ hcm]
  simp [convertToOllamaChatMessages, combineImages]

/-- Witness for C8: one binary image part and one text part produce content
equal to the text and a one-element images list holding the base64 bytes. -/
theorem convert_user_message_concat_and_images_witness :
    convertToOllamaChatMessages [.user [.image (.bytes [1, 2, 3]), .text "Hello"]]
      = .ok [.user "Hello" (some ["AQID"])] :=
  (convert_user_message_concat_and_images
    [.image (.bytes [1, 2, 3]), .text "Hello"] rfl).trans (by rfl)

/-- C9: a tool-role message with n tool-result parts maps to exactly n
target messages of role tool, in part order, each carrying the part's
toolCallId and a content that is `JSON.stringify` of the result for
object-typed results and the plain string form otherwise. -/
theorem convert_tool_message_one_per_result (parts : List ToolResultPart) :
    convertToOllamaChatMessages [.tool parts]
      = .ok (parts.map fun part =>
          .tool
            (if jsTypeofIsObject part.result then jsonStringify part.result
             else jsToString part.result)
            part.toolCallId) := by
  have hcm : convertMessage (PromptMessage.tool parts)
      = Except.ok (parts.map fun part =>
          OllamaMessage.tool (toolResultContent part.result) part.toolCallId) := rfl
  rw [convert_cons_ok (.tool parts) [] _ hcm]
  simp [convertToOllamaChatMessages, toolResultContent]

/-! ### Fixtures and claims about the non-streaming path -/

/-- A response body in the shape the chat endpoint returns, carrying a
present `prompt_eval_count` of 0. -/
def chatBodyZeroPrompt : Json :=
  .obj
    [("model", .str "llama3"),
     ("created_at", .str "2023-08-04T19:22:45.499127Z"),
     ("message", .obj [("role", .str "assistant"), ("content", .str "Hello, World!")]),
     ("done", .bool true),
     ("total_duration", .num 5043500667),
     ("load_duration", .num 5025959),
     ("prompt_eval_count", .num 0),
     ("prompt_eval_duration", .num 325953000),
     ("eval_count", .num 20),
     ("eval_duration", .num 4709213000)]

/-- The same response body with `prompt_eval_count` 25, as in the usage
test fixture. -/
def chatBodyPrompt25 : Json :=
  .obj
    [("model", .str "llama3"),
     ("created_at", .str "2023-08-04T19:22:45.499127Z"),
     ("message", .obj [("role", .str "assistant"), ("content", .str "Hello, World!")]),
     ("done", .bool true),
     ("total_duration", .num 5043500667),
     ("load_duration", .num 5025959),
     ("prompt_eval_count", .num 25),
     ("prompt_eval_duration", .num 325953000),
     ("eval_count", .num 20),
     ("eval_duration", .num 4709213000)]

/-- The decoded record of `chatBodyPrompt25`. -/
def decodedChatBody25 : OllamaChatChunk :=
  { created_at := "2023-08-04T19:22:45.499127Z"
    eval_count := 20
    eval_duration := 4709213000
    load_duration := some 5025959
    message := { content := "Hello, World!", role := "assistant" }
    model := "llama3"
    prompt_eval_count := some 25
    prompt_eval_duration := some 325953000
    total_duration := 5043500667 }

/-- The section-8 example body of the spec (and the `goGenerate` test
fixture): the completion text sits in a top-level `response` field and
there is no `message` object. -/
def section8Body : Json :=
  .obj
    [("context", .arr [.num 1, .num 2, .num 3]),
     ("created_at", .str "2023-08-04T19:22:45.499127Z"),
     ("done", .bool true),
     ("eval_count", .num 20),
     ("eval_duration", .num 4709213000),
     ("load_duration", .num 5025959),
     ("model", .str "llama3"),
     ("prompt_eval_count", .num 25),
     ("prompt_eval_duration", .num 325953000),
     ("response", .str "Hello, World!"),
     ("total_duration", .num 5043500667)]

/-- C4 counterexample: on a response record whose `prompt_eval_count` is
present and equal to 0, `doGenerate` reports promptTokens NaN, not 0 — the
code computes `prompt_eval_count || NaN` and 0 is falsy. -/
theorem doGenerate_zero_prompt_eval_count_reports_nan :
    (doGenerate defaultConfig defaultSettings "llama3" regularOptions chatBodyZeroPrompt).2
      = .ok
          { finishReason := .stop
            text := "Hello, World!"
            usage := { completionTokens := .nan, promptTokens := .nan }
            warnings := [] }
    ∧ JSNumber.nan ≠ JSNumber.int 0 :=
  ⟨rfl, by decide⟩

/-- C4 as amended: for every successful non-streaming response record,
usage is completionTokens NaN and promptTokens equal to the record's
`prompt_eval_count` when that field is present and nonzero, and NaN when it
is absent or 0 (the JavaScript `||` fallback treats 0 as falsy). -/
theorem doGenerate_prompt_tokens_truthy_fallback (j : Json) (c : OllamaChatChunk)
    (h : decodeChatChunk j = some c) :
    (doGenerate defaultConfig defaultSettings "llama3" regularOptions j).2
      = .ok
          { finishReason := .stop
            text := c.message.content
            usage :=
              { completionTokens := .nan
                promptTokens :=
                  match c.prompt_eval_count with
                  | none => .nan
                  | some n => if n = 0 then .nan else .int n }
            warnings := [] } := by
  obtain ⟨args, harg⟩ :
      ∃ args, getArguments defaultSettings "llama3" regularOptions = .ok (args, []) :=
    ⟨_, rfl⟩
  simp only [doGenerate, harg, h]
  cases hp : c.prompt_eval_count with
  | none => simp [jsOrNumber]
  | some n =>
    by_cases hn : n = 0
    · simp [jsOrNumber, JSNumber.truthy, hn]
    · simp [jsOrNumber, JSNumber.truthy, hn]

/-- Witness for the amended C4: a present nonzero `prompt_eval_count` of 25
is reported as 25. -/
theorem doGenerate_prompt_tokens_truthy_fallback_witness :
    (doGenerate defaultConfig defaultSettings "llama3" regularOptions chatBodyPrompt25).2
      = .ok
          { finishReason := .stop
            text := "Hello, World!"
            usage := { completionTokens := .nan, promptTokens := .int 25 }
            warnings := [] } :=
  (doGenerate_prompt_tokens_truthy_fallback chatBodyPrompt25 decodedChatBody25
    rfl).trans (by rfl)

/-- C5 counterexample: the section-8 example body does not validate against
the response schema (its text is under `response` and it has no `message`
object), so `doGenerate` yields a parse failure and no text at all. -/
theorem doGenerate_section8_body_fails_validation :
    decodeChatChunk section8Body = none
    ∧ (doGenerate defaultConfig defaultSettings "llama3" regularOptions section8Body).2
        = .error .responseParseFailure :=
  ⟨rfl, rfl⟩

/-- C5 as amended: for every response record that validates against the
schema, `doGenerate` returns text equal to the record's `message.content`
and finish reason stop; a body shaped like the section-8 example fails
validation instead of yielding text. -/
theorem doGenerate_text_from_message_content (j : Json) (c : OllamaChatChunk)
    (h : decodeChatChunk j = some c) :
    ∃ u, (doGenerate defaultConfig defaultSettings "llama3" regularOptions j).2
        = .ok
            { finishReason := .stop
              text := c.message.content
              usage := u
              warnings := [] } := by
  obtain ⟨args, harg⟩ :
      ∃ args, getArguments defaultSettings "llama3" regularOptions = .ok (args, []) :=
    ⟨_, rfl⟩
  refine ⟨{ completionTokens := .nan
            promptTokens := jsOrNumber (c.prompt_eval_count.map JSNumber.int) .nan }, ?_⟩
  simp only [doGenerate, harg, h]

/-- Witness for the amended C5 at a schema-conforming body whose message
content is the section-8 text. -/
theorem doGenerate_text_from_message_content_witness :
    ∃ u, (doGenerate defaultConfig defaultSettings "llama3" regularOptions chatBodyPrompt25).2
        = .ok
            { finishReason := .stop
              text := "Hello, World!"
              usage := u
              warnings := [] } :=
  doGenerate_text_from_message_content chatBodyPrompt25 decodedChatBody25 rfl

/-! ### Claims about mode rejection before dispatch -/

/-- Call options whose mode is object-tool but whose prompt also contains a
URL image part. -/
def urlImageToolModeOptions : CallOptions :=
  { mode := .objectTool
    prompt := [.user [.image (.url "http://example.com/image.png")]] }

/-- C6 counterexample: with mode object-tool and a prompt containing a URL
image, both entry points fail before dispatch with the `image-part`
unsupported-functionality error — not one naming the mode, because the
message mapper runs while `baseArguments` is built, before the mode switch. -/
theorem object_mode_error_preempted_by_image_part :
    (doGenerate defaultConfig defaultSettings "llama3" urlImageToolModeOptions Json.null).2
      = .error (.unsupportedFunctionality "image-part")
    ∧ (doStream defaultConfig defaultSettings "llama3" urlImageToolModeOptions []).2
      = .error (.unsupportedFunctionality "image-part")
    ∧ (doGenerate defaultConfig defaultSettings "llama3" urlImageToolModeOptions Json.null).1
      = []
    ∧ "image-part" ≠ "object-tool mode" :=
  ⟨rfl, rfl, rfl, by decide⟩

/-- C6 as amended: for every call options value whose mode is object-tool
or object-grammar, both entry points fail before dispatch with an
UnsupportedFunctionality error and issue zero requests; the error names the
mode whenever the prompt's own message conversion succeeds; and object-json
mode succeeds in argument building with `format = json` on the single
dispatched request. -/
theorem unsupported_modes_fail_before_dispatch (settings : OllamaChatSettings)
    (modelId : String) (o : CallOptions) (j : Json)
    (chunks : List (ParseOutcome StreamChunk)) :
    ((o.mode = .objectTool ∨ o.mode = .objectGrammar) →
       (doGenerate defaultConfig settings modelId o j).1 = []
       ∧ (doStream defaultConfig settings modelId o chunks).1 = []
       ∧ (∃ f, (doGenerate defaultConfig settings modelId o j).2
             = .error (.unsupportedFunctionality f)
           ∧ (doStream defaultConfig settings modelId o chunks).2
             = .error (.unsupportedFunctionality f))
       ∧ (∀ msgs, convertToOllamaChatMessages o.prompt = .ok msgs →
            (doGenerate defaultConfig settings modelId o j).2
              = .error (.unsupportedFunctionality (objectModeFunctionality o.mode))
            ∧ (doStream defaultConfig settings modelId o chunks).2
              = .error (.unsupportedFunctionality (objectModeFunctionality o.mode))))
    ∧ (o.mode = .objectJson →
         ∀ msgs, convertToOllamaChatMessages o.prompt = .ok msgs →
           ∃ args, getArguments settings modelId o = .ok (args, [])
             ∧ args.format = some "json"
             ∧ (doGenerate defaultConfig settings modelId o j).1
                 = [{ url := defaultConfig.baseURL ++ "/chat"
                      body := { args := args, stream := some false } }]
             ∧ (doStream defaultConfig settings modelId o chunks).1
                 = [{ url := defaultConfig.baseURL ++ "/chat"
                      body := { args := args, stream := none } }]) := by
  constructor
  · intro hmode
    have hga : ∀ msgs, convertToOllamaChatMessages o.prompt = .ok msgs →
        getArguments settings modelId o
          = .error (.unsupportedFunctionality (objectModeFunctionality o.mode)) := by
      intro msgs hc
      rcases hmode with h1 | h1 <;>
        simp [getArguments, hc, h1, objectModeFunctionality]
    have hge : ∃ f, getArguments settings modelId o
        = .error (.unsupportedFunctionality f) := by
      rcases convert_error_is_image_part o.prompt with ⟨msgs, hok⟩ | herr
      · exact ⟨objectModeFunctionality o.mode, hga msgs hok⟩
      · exact ⟨"image-part", by simp [getArguments, herr]⟩
    obtain ⟨f, hf⟩ := hge
    refine ⟨?_, ?_, ⟨f, ?_, ?_⟩, ?_⟩
    · simp [doGenerate, hf]
    · simp [doStream, hf]
    · simp [doGenerate, hf]
    · simp [doStream, hf]
    · intro msgs hc
      exact ⟨by simp [doGenerate, hga msgs hc], by simp [doStream, hga msgs hc]⟩
  · intro hjson msgs hc
    cases hres : getArguments settings modelId o with
    | error e =>
      exfalso
      rw [getArguments, hc, hjson] at hres
      cases hres
    | ok pr =>
      obtain ⟨args, warn⟩ := pr
      have hres2 := hres
      rw [getArguments, hc, hjson] at hres2
      have hwarn : warn = [] := by
        cases hres2
        rfl
      have hfmt : args.format = some "json" := by
        cases hres2
        rfl
      subst hwarn
      refine ⟨args, rfl, hfmt, ?_, ?_⟩
      · cases hdec : decodeChatChunk j <;> simp [doGenerate, hres, hdec]
      · simp [doStream, hres]

/-- Witness for the amended C6: object-tool mode over the plain test prompt
issues no request and fails naming the mode; object-json mode over the same
prompt produces a request whose body carries `format = json`. -/
theorem unsupported_modes_fail_before_dispatch_witness :
    (doGenerate defaultConfig defaultSettings "llama3"
        { mode := .objectTool, prompt := testPrompt } Json.null).1 = []
    ∧ (doGenerate defaultConfig defaultSettings "llama3"
        { mode := .objectTool, prompt := testPrompt } Json.null).2
      = .error (.unsupportedFunctionality "object-tool mode")
    ∧ ∃ args, getArguments defaultSettings "llama3"
          { mode := .objectJson, prompt := testPrompt } = .ok (args, [])
        ∧ args.format = some "json" := by
  have h1 := unsupported_modes_fail_before_dispatch defaultSettings "llama3"
    { mode := .objectTool, prompt := testPrompt } Json.null []
  have h2 := unsupported_modes_fail_before_dispatch defaultSettings "llama3"
    { mode := .objectJson, prompt := testPrompt } Json.null []
  have ha := h1.1 (Or.inl rfl)
  have hb := h2.2 rfl [.user "Hello" none] rfl
  obtain ⟨args, hargs, hfmt, _, _⟩ := hb
  exact ⟨ha.1, (ha.2.2.2 [.user "Hello" none] rfl).1, args, hargs, hfmt⟩

end Ollama
